import Mathlib

/-!
A shallow embedding of the report-generation pipeline of
`backend/services/analysis_service.py` (class `AnalysisService`), together with
the data model of `backend/models/report.py` and `backend/models/match.py`.

Modelling conventions:
* Python `float` values are modelled as exact rationals (`ℚ`); all the
  thresholds in the source (0.7, 0.4, 1.15, ...) are exactly representable,
  and no analysed property depends on IEEE-754 rounding.
* Python `dict` (insertion-ordered) is modelled as an association list in
  insertion order, updated by `bump_assoc` / key-unique insertion; a dict
  comprehension built from a list (later duplicate keys overwrite earlier
  ones) is looked up with `last_assoc?`.
* Python's stable `list.sort(key=k, reverse=True)` is modelled by
  `sortByDesc`, a stable insertion sort with the same resulting order.
* Python `max(xs, key=k)` / `min(xs, key=k)` return the first extremal
  element; `firstMaxBy` / `firstMinBy` mirror that.
* `datetime` values are modelled by their (year, month, day) triple, which
  determines everything `_get_date_range` renders.
* Numeric string formatting (f"\x7bx:.2f\x7d" etc.) is modelled on exact
  rationals by `fmt0` / `fmt1` / `fmt2` (round-to-nearest); no theorem below
  depends on a formatted digit string.
-/

attribute [local semireducible] Rat.add Rat.mul Rat.inv Rat.sub Rat.ofScientific

namespace VetoBrain

/-- Association-list lookup (Python `dict.get` for a dict with unique keys,
built in insertion order). -/
def assoc_get? {α : Type} : List (String × α) → String → Option α
  | [], _ => none
  | (a, v) :: rest, k => if a == k then some v else assoc_get? rest k

/-- Update-or-append for an insertion-ordered association list with unique
keys: Python `d[k] = f(d.get(k, dflt))` on a `dict`/`defaultdict`. -/
def update_assoc {α : Type} (dflt : α) (f : α → α) :
    List (String × α) → String → List (String × α)
  | [], k => [(k, f dflt)]
  | (a, v) :: rest, k =>
      if a == k then (a, f v) :: rest else (a, v) :: update_assoc dflt f rest k

/-- `d[k] += 1` on a `defaultdict(int)`. -/
def bump_assoc (l : List (String × ℕ)) (k : String) : List (String × ℕ) :=
  update_assoc 0 (· + 1) l k

/-- Lookup in the dict comprehension `\x7bkey(x): x for x in l\x7d`: the value of the
last element of `l` with the given key. -/
def last_assoc? {α : Type} (key : α → String) (l : List α) (k : String) : Option α :=
  l.reverse.find? (fun x => key x == k)

/-- ASCII lowercasing of one character (what Python `str.lower()` does on the
ASCII map names this codebase handles). -/
def lowerChar (c : Char) : Char :=
  if 'A' ≤ c ∧ c ≤ 'Z' then Char.ofNat (c.toNat + 32) else c

/-- Python `str.lower()` (ASCII). -/
def lowerStr (s : String) : String := String.mk (s.data.map lowerChar)

/-- Python `sub in s` substring test. -/
def strContains (s sub : String) : Bool :=
  s.data.tails.any (fun t => sub.data.isPrefixOf t)

/-- Python's stable `list.sort(key=key, reverse=True)`: a stable sort into
non-increasing key order.  A stable insertion sort produces the same list as
Python's stable mergesort for a total preorder, so this is extensionally the
source's sort. -/
def sortByDesc {α : Type} {β : Type} [LinearOrder β] (key : α → β) (l : List α) : List α :=
  List.insertionSort (fun a b => key b ≤ key a) l

/-- Python `max(l, key=key)` for nonempty `l`, `max(l, key=key, default=None)`
otherwise: the first element with maximal key. -/
def firstMaxBy {α : Type} {β : Type} [LinearOrder β] (key : α → β) (l : List α) : Option α :=
  l.foldl (fun acc d =>
    match acc with
    | none => some d
    | some b => if key b < key d then some d else some b) none

/-- Python `min(l, key=key)`: the first element with minimal key. -/
def firstMinBy {α : Type} {β : Type} [LinearOrder β] (key : α → β) (l : List α) : Option α :=
  l.foldl (fun acc d =>
    match acc with
    | none => some d
    | some b => if key d < key b then some d else some b) none

/-- Round-to-nearest rendering of f"\x7bq:.0f\x7d" (formatting only; no theorem
below inspects these digits). -/
def fmt0 (q : ℚ) : String := toString (round q : ℤ)

/-- Rendering of f"\x7bq:.1f\x7d". -/
def fmt1 (q : ℚ) : String :=
  let n : ℤ := round (q * 10)
  let a := n.natAbs
  (if n < 0 then "-" else "") ++ toString (a / 10) ++ "." ++ toString (a % 10)

/-- Rendering of f"\x7bq:.2f\x7d". -/
def fmt2 (q : ℚ) : String :=
  let n : ℤ := round (q * 100)
  let a := n.natAbs
  (if n < 0 then "-" else "") ++ toString (a / 100) ++ "." ++
    (if a % 100 < 10 then "0" else "") ++ toString (a % 100)

/-! ## Data model (`backend/models/match.py`, `backend/models/report.py`) -/

/-- The (year, month, day) of a `datetime`; ordered lexicographically like
`datetime` itself (times of day are immaterial to `_get_date_range`). -/
structure SimpleDate where
  year : ℕ
  month : ℕ
  day : ℕ
deriving DecidableEq

/-- `datetime` comparison restricted to dates. -/
def dateLe (a b : SimpleDate) : Bool :=
  a.year < b.year || (a.year == b.year &&
    (a.month < b.month || (a.month == b.month && a.day ≤ b.day)))

/-- `PlayerMatchStats` of `models/match.py`. -/
structure PlayerMatchStats where
  player_id : String
  player_name : String
  agent : String
  kills : ℕ := 0
  deaths : ℕ := 0
  assists : ℕ := 0
  acs : ℚ := 0
  adr : ℚ := 0
  first_bloods : ℕ := 0
  first_deaths : ℕ := 0
  plants : ℕ := 0
  defuses : ℕ := 0
  clutches_won : ℕ := 0
  clutches_played : ℕ := 0
  headshot_pct : ℚ := 0

/-- `Match` of `models/match.py`. -/
structure Match where
  series_id : String
  match_date : Option SimpleDate := none
  map_name : String := ""
  team_id : String := ""
  team_name : String := ""
  opponent_id : String := ""
  opponent_name : String := ""
  team_score : ℤ := 0
  opponent_score : ℤ := 0
  won : Bool := false
  tournament_name : String := ""
  player_stats : List PlayerMatchStats := []

/-- `MapStats` of `models/report.py`. -/
structure MapStats where
  map_name : String
  games_played : ℕ
  wins : ℕ
  losses : ℕ
  avg_rounds_won : ℚ := 0
  avg_rounds_lost : ℚ := 0
deriving DecidableEq

/-- The `win_rate` property of `MapStats`: `wins / max(wins + losses, 1)`. -/
def MapStats.win_rate (ms : MapStats) : ℚ :=
  (ms.wins : ℚ) / (max (ms.wins + ms.losses) 1 : ℕ)

/-- `PlayerStats` of `models/report.py`. -/
structure PlayerStats where
  name : String
  top_agents : List String
  impact : String
  avg_acs : ℚ := 0
  avg_kd : ℚ := 0
  first_blood_rate : ℚ := 0
  games_played : ℕ := 0

/-- `ReportSummary` of `models/report.py`. -/
structure ReportSummary where
  primary_threat : String
  key_takeaway : String
  team_playstyle : String := ""
  recent_form : String := ""

/-- `VetoRecommendation` of `models/report.py`. -/
structure VetoRecommendation where
  map_name : String
  score : ℚ
  recommendation : String
  our_win_rate : ℚ := 0
  their_win_rate : ℚ := 0
  reason : String := ""

/-- `TacticalInsight` of `models/report.py`. -/
structure TacticalInsight where
  category : String
  title : String
  description : String
  severity : String := "INFO"
  icon : String := ""

/-- `MapPoolEntry` of `models/report.py`. -/
structure MapPoolEntry where
  map_name : String
  games_played : ℕ := 0
  win_rate : ℚ := 0
  attack_win_rate : ℚ := 0
  defense_win_rate : ℚ := 0
  avg_round_diff : ℚ := 0

/-- `PlayerBehaviorProfile` of `models/report.py`. -/
structure PlayerBehaviorProfile where
  name : String
  primary_role : String
  secondary_role : String := ""
  aggression_score : ℚ := 50
  consistency_score : ℚ := 50
  impact_rating : ℚ := 50
  playstyle_tags : List String := []
  agent_pool : List String := []
  preferred_site : String := ""
  round_presence : String := ""

/-- `TeamComposition` of `models/report.py`. -/
structure TeamComposition where
  primary_comp : List String
  comp_frequency : ℚ
  role_distribution : List (String × ℚ)
  flex_players : List String
  one_tricks : List String
  aggression_style : String
  execute_style : String

/-- `EconomyTendency` of `models/report.py`. -/
structure EconomyTendency where
  force_buy_frequency : String
  eco_discipline : String
  save_round_effectiveness : String
  post_plant_focus : String

/-- `ScoutReport` of `models/report.py`. -/
structure ScoutReport where
  team_id : String
  team_name : String
  summary : ReportSummary
  recommended_bans : List String
  player_stats : List PlayerStats
  map_stats : List MapStats := []
  matches_analyzed : ℕ := 0
  date_range : String := ""
  veto_recommendations : List VetoRecommendation := []
  tactical_insights : List TacticalInsight := []
  map_pool_matrix : List MapPoolEntry := []
  player_behavior_profiles : List PlayerBehaviorProfile := []
  team_composition : Option TeamComposition := none
  economy_tendency : Option EconomyTendency := none

/-- The per-player running totals of `_aggregate_player_stats` (the inner
`defaultdict` value). -/
structure PlayerData where
  name : String := ""
  games : ℕ := 0
  total_kills : ℕ := 0
  total_deaths : ℕ := 0
  total_assists : ℕ := 0
  total_acs : ℚ := 0
  total_adr : ℚ := 0
  total_first_bloods : ℕ := 0
  total_first_deaths : ℕ := 0
  agents : List (String × ℕ) := []
  agent_wins : List (String × ℕ) := []

/-- The per-map running totals of `_analyze_map_performance`. -/
structure MapData where
  games : ℕ := 0
  wins : ℕ := 0
  losses : ℕ := 0
  rounds_won : ℤ := 0
  rounds_lost : ℤ := 0

/-! ## Class constants of `AnalysisService` -/

/-- `AnalysisService.ALL_MAPS`: the canonical competitive map pool. -/
def ALL_MAPS : List String :=
  ["Abyss", "Bind", "Breeze", "Corrode", "Haven", "Pearl", "Split"]

/-- `AnalysisService.AGENT_ROLES`. -/
def AGENT_ROLES : List (String × String) :=
  [("Jett", "Duelist"), ("Raze", "Duelist"), ("Reyna", "Duelist"),
   ("Phoenix", "Duelist"), ("Yoru", "Duelist"), ("Neon", "Duelist"), ("Iso", "Duelist"),
   ("Omen", "Controller"), ("Brimstone", "Controller"), ("Viper", "Controller"),
   ("Astra", "Controller"), ("Harbor", "Controller"), ("Clove", "Controller"),
   ("Killjoy", "Sentinel"), ("Cypher", "Sentinel"), ("Sage", "Sentinel"),
   ("Chamber", "Sentinel"), ("Deadlock", "Sentinel"), ("Vyse", "Sentinel"),
   ("Sova", "Initiator"), ("Breach", "Initiator"), ("Skye", "Initiator"),
   ("KAY/O", "Initiator"), ("Fade", "Initiator"), ("Gekko", "Initiator")]

/-- `AnalysisService.AGENT_PLAYSTYLES`. -/
def AGENT_PLAYSTYLES : List (String × List String) :=
  [("Jett", ["Entry Fragger", "Op Player", "Space Creator"]),
   ("Raze", ["Entry Fragger", "Site Clearer", "Utility Damage"]),
   ("Reyna", ["Entry Fragger", "Self-Sufficient", "Clutch Player"]),
   ("Neon", ["Entry Fragger", "Fast Executes", "Space Creator"]),
   ("Phoenix", ["Entry Fragger", "Self-Sufficient", "Flash Player"]),
   ("Yoru", ["Lurker", "Flanker", "Mind Games"]),
   ("Omen", ["Lurker", "Flanker", "Creative Plays"]),
   ("Cypher", ["Lurker", "Info Gatherer", "Flank Watch"]),
   ("Killjoy", ["Anchor", "Site Holder", "Post-Plant"]),
   ("Sage", ["Anchor", "Support", "Healer"]),
   ("Deadlock", ["Anchor", "Site Holder", "Trap Player"]),
   ("Vyse", ["Anchor", "Site Holder", "Area Denial"]),
   ("Sova", ["Support", "Info Gatherer", "Post-Plant"]),
   ("Fade", ["Support", "Info Gatherer", "Entry Support"]),
   ("Skye", ["Support", "Entry Support", "Healer"]),
   ("Breach", ["Support", "Entry Support", "Flash Player"]),
   ("KAY/O", ["Support", "Entry Support", "Suppression"]),
   ("Gekko", ["Support", "Entry Support", "Utility Recycle"]),
   ("Chamber", ["Op Player", "Anchor", "Clutch Player"]),
   ("Iso", ["Entry Fragger", "Duelist", "1v1 Specialist"]),
   ("Viper", ["Anchor", "Post-Plant", "Site Controller"]),
   ("Brimstone", ["Support", "Post-Plant", "Execute Caller"]),
   ("Astra", ["Support", "Global Control", "Big Brain"]),
   ("Harbor", ["Support", "Site Controller", "Fast Executes"]),
   ("Clove", ["Support", "Self-Sufficient", "Aggro Smoke"])]

/-- `AnalysisService.AGENT_SITE_PREFERENCE`. -/
def AGENT_SITE_PREFERENCE : List (String × String) :=
  [("Jett", "Flex"), ("Chamber", "A"), ("Sova", "A"),
   ("Killjoy", "B"), ("Cypher", "B"), ("Raze", "B"),
   ("Omen", "Mid"), ("Viper", "Flex"), ("Sage", "Flex")]

/-- The duelist set used in `_generate_tactical_insights` and
`_analyze_playstyle`. -/
def duelistSet : List String :=
  ["Jett", "Raze", "Reyna", "Phoenix", "Yoru", "Neon", "Iso"]

/-- The controller set of `_analyze_playstyle`. -/
def controllerSet : List String :=
  ["Omen", "Brimstone", "Viper", "Astra", "Harbor", "Clove"]

/-- The sentinel set of `_analyze_playstyle`. -/
def sentinelSet : List String :=
  ["Killjoy", "Cypher", "Sage", "Chamber", "Deadlock", "Vyse"]

/-! ## `_aggregate_player_stats` and `_analyze_map_performance` -/

/-- `player_stat.player_id or player_stat.player_name` (falsy = empty string). -/
def pidOf (ps : PlayerMatchStats) : String :=
  if ps.player_id == "" then ps.player_name else ps.player_id

/-- One iteration of the inner loop of `_aggregate_player_stats`: fold the
stat line `ps` of match `m` into the aggregate `d`. -/
def foldPlayerStat (m : Match) (d : PlayerData) (ps : PlayerMatchStats) : PlayerData :=
  { name := ps.player_name
    games := d.games + 1
    total_kills := d.total_kills + ps.kills
    total_deaths := d.total_deaths + ps.deaths
    total_assists := d.total_assists + ps.assists
    total_acs := d.total_acs + ps.acs
    total_adr := d.total_adr + ps.adr
    total_first_bloods := d.total_first_bloods + ps.first_bloods
    total_first_deaths := d.total_first_deaths + ps.first_deaths
    agents := bump_assoc d.agents ps.agent
    agent_wins := if m.won then bump_assoc d.agent_wins ps.agent else d.agent_wins }

/-- `AnalysisService._aggregate_player_stats`: insertion-ordered mapping from
player key to running totals. -/
def aggregate_player_stats (matchList : List Match) : List (String × PlayerData) :=
  matchList.foldl
    (fun aggs m =>
      m.player_stats.foldl
        (fun a ps => update_assoc {} (fun d => foldPlayerStat m d ps) a (pidOf ps))
        aggs)
    []

/-- `match.map_name or "Unknown"` (Python falsy: the empty string). -/
def normMapName (m : Match) : String :=
  if m.map_name == "" then "Unknown" else m.map_name

/-- One iteration of the first loop of `_analyze_map_performance`. -/
def foldMapData (d : MapData) (m : Match) : MapData :=
  { games := d.games + 1
    wins := if m.won then d.wins + 1 else d.wins
    losses := if m.won then d.losses else d.losses + 1
    rounds_won := d.rounds_won + m.team_score
    rounds_lost := d.rounds_lost + m.opponent_score }

/-- `AnalysisService._analyze_map_performance`. -/
def analyze_map_performance (matchList : List Match) : List MapStats :=
  let map_data :=
    matchList.foldl (fun md m => update_assoc {} (fun d => foldMapData d m) md (normMapName m)) []
  let map_stats :=
    (map_data.filter (fun p => p.1 != "Unknown")).map (fun p =>
      { map_name := p.1
        games_played := p.2.games
        wins := p.2.wins
        losses := p.2.losses
        avg_rounds_won := (p.2.rounds_won : ℚ) / (max p.2.games 1 : ℕ)
        avg_rounds_lost := (p.2.rounds_lost : ℚ) / (max p.2.games 1 : ℕ) })
  sortByDesc MapStats.win_rate map_stats

/-! ## `_generate_veto_recommendations` -/

/-- The demo-mode baseline `our_rates` dict of `_generate_veto_recommendations`. -/
def demoOurRates : List (String × ℚ) :=
  [("haven", 0.72), ("bind", 0.58), ("breeze", 0.48),
   ("pearl", 0.60), ("split", 0.45), ("abyss", 0.53), ("corrode", 0.55)]

/-- `their_rates.get(key, 0.5)`: the win rate of the last entry of
`their_map_stats` whose lowercased name is `key`, else `0.5`. -/
def theirWr (their_map_stats : List MapStats) (key : String) : ℚ :=
  ((last_assoc? (fun ms => lowerStr ms.map_name) their_map_stats key).map
    MapStats.win_rate).getD 0.5

/-- `their_games.get(key, 0)`. -/
def theirGp (their_map_stats : List MapStats) (key : String) : ℕ :=
  ((last_assoc? (fun ms => lowerStr ms.map_name) their_map_stats key).map
    (·.games_played)).getD 0

/-- `our_rates.get(key, 0.5)`: supplied team stats when available (the
`our_team_stats['map_stats']` list), otherwise the demo baseline. -/
def ourWr (our_team_stats : Option (List MapStats)) (key : String) : ℚ :=
  match our_team_stats with
  | some msl =>
      ((last_assoc? (fun ms => lowerStr ms.map_name) msl key).map
        MapStats.win_rate).getD 0.5
  | none => (assoc_get? demoOurRates key).getD 0.5

/-- The category/reason decision of `_generate_veto_recommendations` for one
map, after the score has been computed. -/
def vetoCategory (their_wr : ℚ) (their_gp : ℕ) (score : ℚ) : String × String :=
  let strong_map := their_wr ≥ 0.70 ∧ their_gp ≥ 2
  let weak_map := their_wr ≤ 0.40 ∧ their_gp ≥ 2
  if strong_map then
    if score ≤ -0.15 then
      ("MUST_BAN", "They dominate this map (" ++ fmt0 (their_wr * 100) ++ "% WR)")
    else
      ("BAN", "Opponent-strong map (" ++ fmt0 (their_wr * 100) ++ "% WR)")
  else if weak_map then
    if score ≥ 0.15 then ("MUST_PICK", "Clear advantage")
    else ("PICK", "They struggle here")
  else
    if score ≥ 0.15 then
      ("MUST_PICK", "Strong advantage (+" ++ fmt0 (score * 100) ++ "%)")
    else if score ≥ 0.05 then ("PICK", "Slight advantage")
    else if score ≤ -0.15 then
      ("MUST_BAN", "They have a significant edge (" ++ fmt0 (their_wr * 100) ++ "% WR)")
    else if score ≤ -0.05 then ("BAN", "They have an edge here")
    else ("NEUTRAL", "Even matchup - decider potential")

/-- The loop body of `_generate_veto_recommendations` for one canonical map. -/
def vetoRecFor (their_map_stats : List MapStats) (our_team_stats : Option (List MapStats))
    (map_name : String) : VetoRecommendation :=
  let key := lowerStr map_name
  let our_wr := ourWr our_team_stats key
  let their_wr := theirWr their_map_stats key
  let their_gp := theirGp their_map_stats key
  let score0 := our_wr * 0.5 - their_wr * 0.5
  let score := if their_gp < 3 then score0 * 0.8 else score0
  let rr := vetoCategory their_wr their_gp score
  { map_name := map_name
    score := score
    recommendation := rr.1
    our_win_rate := our_wr
    their_win_rate := their_wr
    reason := rr.2 }

/-- `AnalysisService._generate_veto_recommendations`. -/
def generate_veto_recommendations (their_map_stats : List MapStats)
    (our_team_stats : Option (List MapStats) := none) : List VetoRecommendation :=
  sortByDesc VetoRecommendation.score
    (ALL_MAPS.map (vetoRecFor their_map_stats our_team_stats))

/-! ## `_generate_tactical_insights` -/

/-- The team K/D computed in `_generate_tactical_insights`:
`sum(kills) / max(sum(deaths), 1)`. -/
def teamKd (player_aggregates : List (String × PlayerData)) : ℚ :=
  let total_kills := (player_aggregates.map (·.2.total_kills)).sum
  let total_deaths := (player_aggregates.map (·.2.total_deaths)).sum
  (total_kills : ℚ) / (max total_deaths 1 : ℕ)

/-- The combined `all_agents` pick count for one agent across all player
aggregates (`all_agents[agent]` after the TEMPLATE 5 accumulation loop). -/
def allAgentsCount (player_aggregates : List (String × PlayerData)) (agent : String) : ℕ :=
  (player_aggregates.map (fun p => ((assoc_get? p.2.agents agent).getD 0))).sum

/-- `sum(all_agents.values())` of TEMPLATE 5. -/
def totalAgentPicks (player_aggregates : List (String × PlayerData)) : ℕ :=
  (player_aggregates.map (fun p => (p.2.agents.map (·.2)).sum)).sum

/-- `AnalysisService._generate_tactical_insights`: the fixed battery of
templates, evaluated in order; each contributes zero or one insight. -/
def generate_tactical_insights (player_aggregates : List (String × PlayerData))
    (map_stats : List MapStats) (matchList : List Match) : List TacticalInsight :=
  let star_player := firstMaxBy
    (fun d => d.total_acs / ((max d.games 1 : ℕ) : ℚ)) (player_aggregates.map (·.2))
  let team_kd := teamKd player_aggregates
  let ins1 : List TacticalInsight :=
    if team_kd > 1.15 then
      [{ category := "OPENING", title := "High Fragging Team"
         description := "Team K/D of " ++ fmt2 team_kd ++
           " indicates strong mechanical skill. Expect confident aim duels. Use utility to avoid dry peeks."
         severity := "WARNING", icon := "!" }]
    else if team_kd < 0.95 then
      [{ category := "OPENING", title := "Vulnerable to Aggression"
         description := "Team K/D of " ++ fmt2 team_kd ++
           " suggests they struggle in duels. Apply early pressure and take aim fights."
         severity := "TIP", icon := "+" }]
    else []
  let ins2 : List TacticalInsight :=
    match star_player with
    | none => []
    | some star =>
        if star.games > 0 then
          let star_acs := star.total_acs / ((star.games : ℕ) : ℚ)
          let star_name := star.name
          let top_agent :=
            ((firstMaxBy (·.2) star.agents).map (·.1)).getD "Unknown"
          if star_acs > 270 then
            [{ category := "KEY_PLAYER", title := "Neutralize " ++ star_name
               description := star_name ++ " averages " ++ fmt0 star_acs ++ " ACS on " ++
                 top_agent ++
                 ". Dedicate utility to shut them down early. If they\x27re quiet, the team struggles."
               severity := "WARNING", icon := "*" }]
          else []
        else []
  let weak_maps := map_stats.filter (fun ms => ms.win_rate < 0.4 ∧ ms.games_played ≥ 2)
  let ins3 : List TacticalInsight :=
    match firstMinBy MapStats.win_rate weak_maps with
    | none => []
    | some weakest =>
        [{ category := "MAP_POOL", title := "Exploit " ++ weakest.map_name
           description := "Only " ++ fmt0 (weakest.win_rate * 100) ++ "% win rate on " ++
             weakest.map_name ++ ". Force this map in veto if possible."
           severity := "TIP", icon := ">" }]
  let strong_maps := map_stats.filter (fun ms => ms.win_rate > 0.7 ∧ ms.games_played ≥ 2)
  let ins4 : List TacticalInsight :=
    match firstMaxBy MapStats.win_rate strong_maps with
    | none => []
    | some strongest =>
        [{ category := "MAP_POOL", title := "Avoid " ++ strongest.map_name
           description := "They have a " ++ fmt0 (strongest.win_rate * 100) ++
             "% win rate on " ++ strongest.map_name ++
             ". Must ban unless you have a specific counter-strat."
           severity := "WARNING", icon := "X" }]
  let duelist_picks := (duelistSet.map (allAgentsCount player_aggregates)).sum
  let total_picks := totalAgentPicks player_aggregates
  let ins5 : List TacticalInsight :=
    if total_picks > 0 ∧ (duelist_picks : ℚ) / (total_picks : ℕ) > 0.35 then
      [{ category := "COMPOSITION", title := "Duelist Heavy Comp"
         description := "They run multiple duelists frequently. Expect aggressive dry peeks and trade-focused plays. Stack utility for retakes."
         severity := "INFO", icon := "!" }]
    else []
  let close_games := matchList.filter (fun m => |m.team_score - m.opponent_score| ≤ 3)
  let ins6 : List TacticalInsight :=
    if (close_games.length : ℚ) > (matchList.length : ℕ) * 0.4 then
      [{ category := "MENTAL", title := "Clutch Situations"
         description := "Many of their games go to overtime or close finishes. They\x27re dangerous in high-pressure situations - don\x27t let rounds drag."
         severity := "INFO", icon := "~" }]
    else []
  let total_rounds_won := (matchList.map (·.team_score)).sum
  let total_rounds_lost := (matchList.map (·.opponent_score)).sum
  let ins7 : List TacticalInsight :=
    if matchList.isEmpty then []
    else
      let avg_diff := ((total_rounds_won - total_rounds_lost : ℤ) : ℚ) / (matchList.length : ℕ)
      if avg_diff > 3 then
        [{ category := "FORM", title := "Dominant Form"
           description := "Averaging +" ++ fmt1 avg_diff ++
             " round differential. They\x27re in peak form - expect disciplined play."
           severity := "WARNING", icon := "^" }]
      else if avg_diff < -2 then
        [{ category := "FORM", title := "Struggling Recently"
           description := "Negative round differential (" ++ fmt1 avg_diff ++
             "). Apply early pressure to tilt them further."
           severity := "TIP", icon := "v" }]
      else []
  ins1 ++ ins2 ++ ins3 ++ ins4 ++ ins5 ++ ins6 ++ ins7

/-! ## `_generate_map_pool_matrix` -/

/-- The matrix entry of `_generate_map_pool_matrix` for one canonical map. -/
def mapPoolEntryFor (map_stats : List MapStats) (map_name : String) : MapPoolEntry :=
  match last_assoc? (fun ms => lowerStr ms.map_name) map_stats (lowerStr map_name) with
  | some ms =>
      let total_rounds := ms.avg_rounds_won + ms.avg_rounds_lost
      let atk := if total_rounds > 0 then min (ms.win_rate * 0.9) 1.0 else 0.5
      let dfn := if total_rounds > 0 then min (ms.win_rate * 1.1) 1.0 else 0.5
      { map_name := map_name
        games_played := ms.games_played
        win_rate := ms.win_rate
        attack_win_rate := atk
        defense_win_rate := dfn
        avg_round_diff := ms.avg_rounds_won - ms.avg_rounds_lost }
  | none =>
      { map_name := map_name, games_played := 0, win_rate := 0
        attack_win_rate := 0, defense_win_rate := 0, avg_round_diff := 0 }

/-- `AnalysisService._generate_map_pool_matrix`. -/
def generate_map_pool_matrix (map_stats : List MapStats) : List MapPoolEntry :=
  sortByDesc MapPoolEntry.win_rate (ALL_MAPS.map (mapPoolEntryFor map_stats))

/-! ## `_identify_primary_threat` and `_generate_player_stats` -/

/-- The per-player record built inside `_identify_primary_threat`. -/
structure ScoredPlayer where
  name : String
  score : ℚ
  avg_acs : ℚ
  avg_kd : ℚ
  fb_rate : ℚ
  top_agent : String

/-- The scored-player record for one aggregate with `games > 0`. -/
def mkScoredPlayer (d : PlayerData) : ScoredPlayer :=
  let avg_acs := d.total_acs / ((d.games : ℕ) : ℚ)
  let avg_kd := (d.total_kills : ℚ) / ((max d.total_deaths 1 : ℕ) : ℚ)
  let first_blood_rate := (d.total_first_bloods : ℚ) /
    ((max (d.total_first_bloods + d.total_first_deaths) 1 : ℕ) : ℚ)
  { name := d.name
    score := (avg_acs / 300 * 0.4) + (avg_kd * 0.3) + (first_blood_rate * 0.3)
    avg_acs := avg_acs
    avg_kd := avg_kd
    fb_rate := first_blood_rate
    top_agent := ((firstMaxBy (·.2) d.agents).map (·.1)).getD "Unknown" }

/-- `AnalysisService._identify_primary_threat`. -/
def identify_primary_threat (player_aggregates : List (String × PlayerData)) :
    String × String :=
  if player_aggregates.isEmpty then ("Unknown Threat", "insufficient data")
  else
    let scored_players :=
      (player_aggregates.filter (fun p => p.2.games != 0)).map (fun p => mkScoredPlayer p.2)
    match sortByDesc ScoredPlayer.score scored_players with
    | [] => ("Unknown Threat", "no player data")
    | top :: _ =>
        let reason :=
          if top.fb_rate > 0.6 then "aggressive opener"
          else if top.avg_acs > 250 then "high impact"
          else "key player"
        (top.name ++ " (" ++ top.top_agent ++ ")", reason)

/-- `AnalysisService._generate_player_stats`. -/
def generate_player_stats (player_aggregates : List (String × PlayerData)) :
    List PlayerStats :=
  let players :=
    (player_aggregates.filter (fun p => p.2.games != 0)).map (fun p =>
      let d := p.2
      let avg_acs := d.total_acs / ((d.games : ℕ) : ℚ)
      let avg_kd := (d.total_kills : ℚ) / ((max d.total_deaths 1 : ℕ) : ℚ)
      let fb_rate := (d.total_first_bloods : ℚ) /
        ((max (d.total_first_bloods + d.total_first_deaths) 1 : ℕ) : ℚ)
      let impact :=
        if avg_acs ≥ 250 then "High" else if avg_acs ≥ 200 then "Medium" else "Low"
      { name := d.name
        top_agents := ((sortByDesc (·.2) d.agents).take 3).map (·.1)
        impact := impact
        avg_acs := avg_acs
        avg_kd := avg_kd
        first_blood_rate := fb_rate
        games_played := d.games })
  sortByDesc PlayerStats.avg_acs players

/-! ## `_get_recommended_bans`, `_calculate_recent_form`, `_analyze_playstyle`,
`_generate_key_takeaway`, `_get_date_range` -/

/-- The collection loop of `_get_recommended_bans` (with its early `break` when
`num_bans` names have been collected). -/
def recommendedBansLoop (num_bans : ℕ) : List MapStats → List String → List String
  | [], bans => bans
  | ms :: rest, bans =>
      if bans.length ≥ num_bans then bans
      else if ms.games_played ≥ 2 then
        recommendedBansLoop num_bans rest (bans ++ [ms.map_name])
      else recommendedBansLoop num_bans rest bans

/-- `AnalysisService._get_recommended_bans` (default `num_bans = 2`). -/
def get_recommended_bans (map_stats : List MapStats) (num_bans : ℕ := 2) : List String :=
  let bans := recommendedBansLoop num_bans map_stats []
  bans ++ List.replicate (num_bans - bans.length) "TBD"

/-- The loop of `_calculate_recent_form`: one result per previously unseen
`series_id`, stopping after five. -/
def recentFormLoop : List Match → List String → List Bool → List Bool
  | [], _, results => results
  | m :: rest, seen, results =>
      if seen.contains m.series_id then recentFormLoop rest seen results
      else
        let results2 := results ++ [m.won]
        if results2.length ≥ 5 then results2
        else recentFormLoop rest (seen ++ [m.series_id]) results2

/-- `AnalysisService._calculate_recent_form`. -/
def calculate_recent_form (matchList : List Match) : String :=
  let results := recentFormLoop matchList [] []
  if results.isEmpty then "No recent data"
  else
    let w := (results.filter id).length
    toString w ++ "W-" ++ toString (results.length - w) ++ "L in last " ++
      toString results.length

/-- Total agent-pick count of one player restricted to an agent set
(the `if agent in <set>` accumulations of `_analyze_playstyle`). -/
def picksIn (set : List String) (p : String × PlayerData) : ℕ :=
  ((p.2.agents.filter (fun q => set.contains q.1)).map (·.2)).sum

/-- `AnalysisService._analyze_playstyle` (the `matches` parameter is unused in
the source body as well). -/
def analyze_playstyle (player_aggregates : List (String × PlayerData))
    (_matchList : List Match) : String :=
  let d_count := (player_aggregates.map (picksIn duelistSet)).sum
  let c_count := (player_aggregates.map (picksIn controllerSet)).sum
  let s_count := (player_aggregates.map (picksIn sentinelSet)).sum
  let total_fb := (player_aggregates.map (·.2.total_first_bloods)).sum
  let total_fd := (player_aggregates.map (·.2.total_first_deaths)).sum
  let fb_ratio := (total_fb : ℚ) / ((max total_fd 1 : ℕ) : ℚ)
  if fb_ratio > 1.2 ∧ d_count > c_count then "Aggressive duelist-focused"
  else if s_count > d_count then "Defensive utility-heavy"
  else if c_count > d_count then "Methodical execute-style"
  else if fb_ratio > 1.1 then "Early aggression focused"
  else "Balanced approach"

/-- `AnalysisService._generate_key_takeaway`. -/
def generate_key_takeaway (team_name primary_threat playstyle : String)
    (bans : List String) : String :=
  let bans_str :=
    if bans.isEmpty then "their comfort maps"
    else String.intercalate " and " (bans.take 2)
  if strContains playstyle "Aggressive" then
    team_name ++ " plays aggressively around " ++ primary_threat ++ ". Ban " ++
      bans_str ++ " and force late-round engagements."
  else if strContains playstyle "Defensive" then
    team_name ++ " relies on defensive setups. Ban " ++ bans_str ++
      " and prepare fast executes."
  else
    team_name ++ " has a balanced approach with " ++ primary_threat ++
      " as key threat. Ban " ++ bans_str ++ "."

/-- Strict date order (`datetime <`). -/
def dateLt (a b : SimpleDate) : Bool := dateLe a b && ¬ a == b

/-- `strftime("%b")`. -/
def monthAbbrev (m : ℕ) : String :=
  ["Jan", "Feb", "Mar", "Apr", "May", "Jun",
   "Jul", "Aug", "Sep", "Oct", "Nov", "Dec"].getD (m - 1) ""

/-- `strftime("%d")` (zero-padded day). -/
def pad2 (n : ℕ) : String := (if n < 10 then "0" else "") ++ toString n

/-- `strftime("%b %d")`. -/
def fmtMonthDay (d : SimpleDate) : String := monthAbbrev d.month ++ " " ++ pad2 d.day

/-- `strftime("%b %d, %Y")`. -/
def fmtMonthDayYear (d : SimpleDate) : String :=
  fmtMonthDay d ++ ", " ++ toString d.year

/-- `AnalysisService._get_date_range`. -/
def get_date_range (matchList : List Match) : String :=
  let dates := matchList.filterMap (·.match_date)
  match dates with
  | [] => "Date range unavailable"
  | d0 :: rest =>
      let min_d := rest.foldl (fun a b => if dateLt b a then b else a) d0
      let max_d := rest.foldl (fun a b => if dateLt a b then b else a) d0
      if min_d.year == max_d.year then
        fmtMonthDay min_d ++ " - " ++ fmtMonthDayYear max_d
      else
        fmtMonthDayYear min_d ++ " - " ++ fmtMonthDayYear max_d

/-! ## `_generate_player_behavior_profiles` -/

/-- The `role_counts` accumulation: pick counts per role
(`AGENT_ROLES.get(agent, 'Unknown')`), in insertion order. -/
def roleCounts (agents : List (String × ℕ)) : List (String × ℕ) :=
  agents.foldl
    (fun rc q => update_assoc 0 (· + q.2) rc ((assoc_get? AGENT_ROLES q.1).getD "Unknown"))
    []

/-- Order-preserving deduplication with the `seen` set of
`_determine_playstyle_tags`. -/
def dedupLoop : List String → List String → List String
  | [], _ => []
  | t :: rest, seen =>
      if seen.contains t then dedupLoop rest seen else t :: dedupLoop rest (t :: seen)

/-- `AnalysisService._determine_playstyle_tags` (its `player_data` parameter is
unused in the source body as well). -/
def determine_playstyle_tags (agents : List (String × ℕ)) (avg_kd : ℚ)
    (primary_role : String) (_player_data : PlayerData) : List String :=
  let tags0 : List String :=
    match firstMaxBy (·.2) agents with
    | none => []
    | some top => ((assoc_get? AGENT_PLAYSTYLES top.1).getD []).take 2
  let tags1 := tags0 ++
    (if avg_kd > 1.3 then ["High Fragging"]
     else if avg_kd < 0.9 then ["Utility Focus"] else [])
  let tags2 := tags1 ++
    (if primary_role == "Duelist" ∧ avg_kd > 1.1 ∧ ¬ tags1.contains "Entry Fragger"
     then ["Entry Fragger"] else [])
  let lurk_picks := (["Yoru", "Omen", "Cypher"].map (fun a => (assoc_get? agents a).getD 0)).sum
  let tags3 := tags2 ++
    (if (lurk_picks : ℚ) > (((agents.map (·.2)).sum : ℕ) : ℚ) * 0.3 ∧ avg_kd > 1.0 ∧
        ¬ tags2.contains "Lurker"
     then ["Lurker"] else [])
  let tags4 := tags3 ++
    (if (primary_role == "Sentinel" ∨ primary_role == "Controller") ∧ avg_kd > 1.1
     then ["Clutch Potential"] else [])
  (dedupLoop tags4 []).take 4

/-- `AnalysisService._infer_preferred_site`. -/
def infer_preferred_site (agents : List (String × ℕ)) : String :=
  let total := (agents.map (·.2)).sum
  let siteScore := fun (site : String) =>
    ((agents.filter
        (fun q => ((assoc_get? AGENT_SITE_PREFERENCE q.1).getD "Flex") == site)).map
      (·.2)).sum
  let site_scores : List (String × ℕ) :=
    [("A", siteScore "A"), ("B", siteScore "B"),
     ("Mid", siteScore "Mid"), ("Flex", siteScore "Flex")]
  if total == 0 then "Flex"
  else
    match firstMaxBy (·.2) site_scores with
    | none => "Flex"
    | some max_site =>
        if (max_site.2 : ℚ) / ((total : ℕ) : ℚ) > 0.5 then max_site.1 else "Flex"

/-- `AnalysisService._infer_round_presence`. -/
def infer_round_presence (primary_role : String) (agents : List (String × ℕ)) : String :=
  if primary_role == "Duelist" then "Early"
  else if primary_role == "Initiator" then "Early-Mid"
  else if primary_role == "Sentinel" then "Late"
  else
    let lurk_picks := (["Omen", "Viper"].map (fun a => (assoc_get? agents a).getD 0)).sum
    if (lurk_picks : ℚ) > (((agents.map (·.2)).sum : ℕ) : ℚ) * 0.3 then "Mid-Late"
    else "Mid"

/-- The profile built by `_generate_player_behavior_profiles` for one aggregate
with `games > 0`.  Note the source multiplies the already-0-to-100 weighted
sums for `aggression_score` and `impact_rating` by a further 100 before
clamping to [0, 100]. -/
def profileFor (d : PlayerData) : PlayerBehaviorProfile :=
  let agents := d.agents
  let sorted_roles := sortByDesc (·.2) (roleCounts agents)
  let primary_role := ((sorted_roles.head?).map (·.1)).getD "Unknown"
  let secondary_role := ((sorted_roles.get? 1).map (·.1)).getD ""
  let avg_kd := (d.total_kills : ℚ) / ((max d.total_deaths 1 : ℕ) : ℚ)
  let total_picks := (agents.map (·.2)).sum
  let duelist_ratio :=
    (((assoc_get? (roleCounts agents) "Duelist").getD 0 : ℕ) : ℚ) /
      ((max total_picks 1 : ℕ) : ℚ)
  let initiator_ratio :=
    (((assoc_get? (roleCounts agents) "Initiator").getD 0 : ℕ) : ℚ) /
      ((max total_picks 1 : ℕ) : ℚ)
  let aggression_score :=
    min 100 (max 0
      (((min (avg_kd / 1.5) 1.0 * 50) + (duelist_ratio * 35) + (initiator_ratio * 15)) * 100))
  let avg_acs := d.total_acs / ((d.games : ℕ) : ℚ)
  let consistency_score :=
    min 100 ((avg_acs / 300) * 50 + (((min d.games 10 : ℕ) : ℚ) / 10) * 50)
  let impact_rating :=
    min 100 (max 0
      (((min (avg_acs / 300) 1.0 * 60) + (min (avg_kd / 1.5) 1.0 * 40)) * 100))
  { name := d.name
    primary_role := primary_role
    secondary_role := secondary_role
    aggression_score := aggression_score
    consistency_score := consistency_score
    impact_rating := impact_rating
    playstyle_tags := determine_playstyle_tags agents avg_kd primary_role d
    agent_pool := ((sortByDesc (·.2) agents).take 3).map (·.1)
    preferred_site := infer_preferred_site agents
    round_presence := infer_round_presence primary_role agents }

/-- `AnalysisService._generate_player_behavior_profiles`. -/
def generate_player_behavior_profiles (player_aggregates : List (String × PlayerData)) :
    List PlayerBehaviorProfile :=
  sortByDesc PlayerBehaviorProfile.impact_rating
    ((player_aggregates.filter (fun p => p.2.games != 0)).map (fun p => profileFor p.2))

/-! ## `_generate_team_composition` and `_generate_economy_tendency` -/

/-- The global `all_agents` pick-count dict of `_generate_team_composition`,
in insertion order. -/
def allAgentsDict (player_aggregates : List (String × PlayerData)) : List (String × ℕ) :=
  player_aggregates.foldl
    (fun aa p => p.2.agents.foldl (fun aa2 q => update_assoc 0 (· + q.2) aa2 q.1) aa)
    []

/-- The global `role_counts` dict of `_generate_team_composition`. -/
def teamRoleCounts (player_aggregates : List (String × PlayerData)) : List (String × ℕ) :=
  player_aggregates.foldl
    (fun rc p =>
      p.2.agents.foldl
        (fun rc2 q => update_assoc 0 (· + q.2) rc2 ((assoc_get? AGENT_ROLES q.1).getD "Unknown"))
        rc)
    []

/-- `AnalysisService._generate_team_composition`. -/
def generate_team_composition (player_aggregates : List (String × PlayerData))
    (matchList : List Match) : Option TeamComposition :=
  if player_aggregates.isEmpty ∧ matchList.isEmpty then none
  else
    let role_counts := teamRoleCounts player_aggregates
    let all_agents := allAgentsDict player_aggregates
    let total_games := totalAgentPicks player_aggregates
    let games_played : ℚ := if total_games > 0 then (total_games : ℚ) / 5 else 1
    let role_distribution := role_counts.map (fun rc => (rc.1, (rc.2 : ℚ) / games_played))
    let primary_comp := ((sortByDesc (·.2) all_agents).take 5).map (·.1)
    let flex_players :=
      (player_aggregates.filter (fun p => p.2.agents.length ≥ 3)).map (·.2.name)
    let one_tricks :=
      (player_aggregates.filter
        (fun p => p.2.agents.length == 1 ∧ p.2.games ≥ 3)).map (·.2.name)
    let total_fb := (player_aggregates.map (·.2.total_first_bloods)).sum
    let total_fd := (player_aggregates.map (·.2.total_first_deaths)).sum
    let fb_ratio := (total_fb : ℚ) / ((max total_fd 1 : ℕ) : ℚ)
    let aggression_style :=
      if fb_ratio > 1.2 then "Aggressive"
      else if fb_ratio < 0.8 then "Passive"
      else "Balanced"
    let duelist_count := (assoc_get? role_counts "Duelist").getD 0
    let controller_count := (assoc_get? role_counts "Controller").getD 0
    let sentinel_count := (assoc_get? role_counts "Sentinel").getD 0
    let execute_style :=
      if duelist_count > controller_count + sentinel_count then "Fast"
      else if ((sentinel_count + controller_count : ℕ) : ℚ) > ((duelist_count : ℕ) : ℚ) * 1.5
        then "Slow"
      else "Default"
    some
      { primary_comp := primary_comp
        comp_frequency := 0.6
        role_distribution := role_distribution
        flex_players := flex_players
        one_tricks := one_tricks
        aggression_style := aggression_style
        execute_style := execute_style }

/-- `AnalysisService._generate_economy_tendency` (the `win_rate` local of the
source is computed but never used). -/
def generate_economy_tendency (matchList : List Match)
    (player_aggregates : List (String × PlayerData)) : Option EconomyTendency :=
  if matchList.isEmpty then none
  else
    let total_rounds_won := (matchList.map (·.team_score)).sum
    let total_rounds_lost := (matchList.map (·.opponent_score)).sum
    let total_rounds := total_rounds_won + total_rounds_lost
    if total_rounds == 0 then none
    else
      let close_games := matchList.filter (fun m => |m.team_score - m.opponent_score| ≤ 3)
      let close_ratio := (close_games.length : ℚ) / ((max matchList.length 1 : ℕ) : ℚ)
      let force_buy_frequency :=
        if close_ratio > 0.5 then "Often"
        else if close_ratio > 0.3 then "Sometimes"
        else "Rarely"
      let wins := (matchList.filter (·.won)).length
      let win_pct := (wins : ℚ) / ((max matchList.length 1 : ℕ) : ℚ)
      let eco_discipline :=
        if win_pct > 0.6 ∧ close_ratio < 0.4 then "Disciplined"
        else if win_pct < 0.4 then "Chaotic"
        else "Mixed"
      let avg_diff :=
        ((total_rounds_won - total_rounds_lost : ℤ) : ℚ) / ((max matchList.length 1 : ℕ) : ℚ)
      let save_round_effectiveness :=
        if avg_diff > 2 then "Strong" else if avg_diff < -2 then "Weak" else "Average"
      let sentinel_picks :=
        (player_aggregates.map (fun p =>
          ((p.2.agents.filter
              (fun q => (assoc_get? AGENT_ROLES q.1) == some "Sentinel")).map (·.2)).sum)).sum
      let total_picks := totalAgentPicks player_aggregates
      let sentinel_ratio := (sentinel_picks : ℚ) / ((max total_picks 1 : ℕ) : ℚ)
      let post_plant_focus :=
        if sentinel_ratio > 0.25 then "High"
        else if sentinel_ratio > 0.15 then "Medium"
        else "Low"
      some
        { force_buy_frequency := force_buy_frequency
          eco_discipline := eco_discipline
          save_round_effectiveness := save_round_effectiveness
          post_plant_focus := post_plant_focus }

/-! ## `_generate_demo_report` and `generate_scout_report` -/

/-- `AnalysisService._get_demo_player_stats`. -/
def get_demo_player_stats : List PlayerStats :=
  [{ name := "aspas", top_agents := ["Jett", "Raze", "Reyna"], impact := "High",
     avg_acs := 278.5, avg_kd := 1.42, first_blood_rate := 0.58, games_played := 12 },
   { name := "Less", top_agents := ["Sova", "Fade", "KAY/O"], impact := "High",
     avg_acs := 241.2, avg_kd := 1.21, first_blood_rate := 0.45, games_played := 12 },
   { name := "cauanzin", top_agents := ["Omen", "Astra", "Viper"], impact := "Medium",
     avg_acs := 198.7, avg_kd := 1.05, first_blood_rate := 0.38, games_played := 12 },
   { name := "tuyz", top_agents := ["Killjoy", "Cypher", "Chamber"], impact := "Medium",
     avg_acs := 185.3, avg_kd := 0.98, first_blood_rate := 0.32, games_played := 12 },
   { name := "raafa", top_agents := ["Breach", "Skye", "Gekko"], impact := "Medium",
     avg_acs := 172.1, avg_kd := 0.95, first_blood_rate := 0.28, games_played := 10 }]

/-- The fixed demo opponent map statistics of `_generate_demo_report`
(Lotus is made strong deliberately to surface the BAN insight). -/
def demoMapStats : List MapStats :=
  [{ map_name := "Haven", games_played := 5, wins := 4, losses := 1,
     avg_rounds_won := 13.2, avg_rounds_lost := 8.4 },
   { map_name := "Split", games_played := 4, wins := 3, losses := 1,
     avg_rounds_won := 13.0, avg_rounds_lost := 9.5 },
   { map_name := "Ascent", games_played := 4, wins := 3, losses := 1,
     avg_rounds_won := 13.5, avg_rounds_lost := 10.0 },
   { map_name := "Bind", games_played := 3, wins := 1, losses := 2,
     avg_rounds_won := 10.3, avg_rounds_lost := 13.0 },
   { map_name := "Lotus", games_played := 3, wins := 3, losses := 0,
     avg_rounds_won := 13.8, avg_rounds_lost := 9.7 }]

/-- The fixed demo behavior profiles of `_generate_demo_report`. -/
def demoBehaviorProfiles : List PlayerBehaviorProfile :=
  [{ name := "aspas", primary_role := "Duelist", secondary_role := "",
     aggression_score := 92.5, consistency_score := 88.0, impact_rating := 95.0,
     playstyle_tags := ["Entry Fragger", "Op Player", "Aggressive Opener", "High Fragging"],
     agent_pool := ["Jett", "Raze", "Reyna"], preferred_site := "Flex",
     round_presence := "Early" },
   { name := "Less", primary_role := "Initiator", secondary_role := "Sentinel",
     aggression_score := 65.0, consistency_score := 82.0, impact_rating := 78.0,
     playstyle_tags := ["Support", "Info Gatherer", "Entry Support"],
     agent_pool := ["Sova", "Fade", "KAY/O"], preferred_site := "A",
     round_presence := "Early-Mid" },
   { name := "cauanzin", primary_role := "Controller", secondary_role := "",
     aggression_score := 45.0, consistency_score := 75.0, impact_rating := 68.0,
     playstyle_tags := ["Lurker", "Creative Plays", "Mid-Round"],
     agent_pool := ["Omen", "Astra", "Viper"], preferred_site := "Mid",
     round_presence := "Mid-Late" },
   { name := "tuyz", primary_role := "Sentinel", secondary_role := "",
     aggression_score := 32.0, consistency_score := 80.0, impact_rating := 62.0,
     playstyle_tags := ["Anchor", "Site Holder", "Post-Plant", "Clutch Potential"],
     agent_pool := ["Killjoy", "Cypher", "Chamber"], preferred_site := "B",
     round_presence := "Late" },
   { name := "raafa", primary_role := "Initiator", secondary_role := "",
     aggression_score := 55.0, consistency_score := 70.0, impact_rating := 58.0,
     playstyle_tags := ["Support", "Entry Support", "Flash Player"],
     agent_pool := ["Breach", "Skye", "Gekko"], preferred_site := "Flex",
     round_presence := "Early-Mid" }]

/-- The fixed demo team composition of `_generate_demo_report`. -/
def demoTeamComposition : TeamComposition :=
  { primary_comp := ["Jett", "Sova", "Omen", "Killjoy", "Breach"]
    comp_frequency := 0.65
    role_distribution :=
      [("Duelist", 1.2), ("Initiator", 1.8), ("Controller", 1.0), ("Sentinel", 1.0)]
    flex_players := ["Less", "raafa"]
    one_tricks := ["aspas"]
    aggression_style := "Aggressive"
    execute_style := "Fast" }

/-- The fixed demo economy tendency of `_generate_demo_report`. -/
def demoEconomyTendency : EconomyTendency :=
  { force_buy_frequency := "Sometimes"
    eco_discipline := "Disciplined"
    save_round_effectiveness := "Strong"
    post_plant_focus := "Medium" }

/-- `AnalysisService._generate_demo_report`: the demo report reuses the real
veto/insight/matrix generators on the fixed demo data. -/
def generate_demo_report (team_id team_name : String) : ScoutReport :=
  let map_stats := demoMapStats
  let veto_recommendations := generate_veto_recommendations map_stats none
  let tactical_insights :=
    generate_tactical_insights (aggregate_player_stats []) map_stats []
  let map_pool_matrix := generate_map_pool_matrix map_stats
  { team_id := team_id
    team_name := team_name
    summary :=
      { primary_threat := "aspas (Jett)"
        key_takeaway := team_name ++
          " plays an aggressive duelist-focused style centered around aspas. Ban their best map and aim for their weak ones."
        team_playstyle := "Aggressive duelist-focused"
        recent_form := "4W-1L in last 5" }
    recommended_bans := ((map_stats.filter (fun m => m.win_rate ≥ 0.7)).map (·.map_name)).take 2
    player_stats := get_demo_player_stats
    map_stats := map_stats
    matches_analyzed := 12
    date_range := "Jan 15 - Feb 3, 2026"
    veto_recommendations := veto_recommendations
    tactical_insights := tactical_insights
    map_pool_matrix := map_pool_matrix
    player_behavior_profiles := demoBehaviorProfiles
    team_composition := some demoTeamComposition
    economy_tendency := some demoEconomyTendency }

/-- `AnalysisService.generate_scout_report` (the `threat_reason` local of the
source is assigned but never read afterwards). -/
def generate_scout_report (team_id team_name : String) (matchList : List Match)
    (our_team_stats : Option (List MapStats) := none) : ScoutReport :=
  if matchList.isEmpty then generate_demo_report team_id team_name
  else
    let player_aggregates := aggregate_player_stats matchList
    let map_stats := analyze_map_performance matchList
    let primary_threat :=
      if player_aggregates.isEmpty then "Unknown (no player data available)"
      else (identify_primary_threat player_aggregates).1
    let player_stats :=
      if player_aggregates.isEmpty then []
      else generate_player_stats player_aggregates
    let recommended_bans := get_recommended_bans map_stats 2
    let recent_form := calculate_recent_form matchList
    let playstyle := analyze_playstyle player_aggregates matchList
    let key_takeaway :=
      generate_key_takeaway team_name primary_threat playstyle recommended_bans
    let date_range := get_date_range matchList
    { team_id := team_id
      team_name := team_name
      summary :=
        { primary_threat := primary_threat
          key_takeaway := key_takeaway
          team_playstyle := playstyle
          recent_form := recent_form }
      recommended_bans := recommended_bans
      player_stats := player_stats
      map_stats := map_stats
      matches_analyzed := matchList.length
      date_range := date_range
      veto_recommendations := generate_veto_recommendations map_stats our_team_stats
      tactical_insights := generate_tactical_insights player_aggregates map_stats matchList
      map_pool_matrix := generate_map_pool_matrix map_stats
      player_behavior_profiles := generate_player_behavior_profiles player_aggregates
      team_composition := generate_team_composition player_aggregates matchList
      economy_tendency := generate_economy_tendency matchList player_aggregates }

/-! ## Formulas transcribed from the specification, for comparison with the
code (refinement checks for C3 and C4) -/

/-- The aggression-score formula as spec section 4.6 states it, transcribed
from the spec words: `100 * (min(avg_kd/1.5,1)*0.5 + duelist_pick_ratio*0.35
+ initiator_pick_ratio*0.15)`, clamped to [0, 100]. -/
def aggressionScoreSpec (avg_kd duelist_ratio initiator_ratio : ℚ) : ℚ :=
  min 100 (max 0
    (100 * (min (avg_kd / 1.5) 1 * 0.5 + duelist_ratio * 0.35 + initiator_ratio * 0.15)))

/-- The impact-rating formula as spec section 4.6 states it, transcribed from
the spec words: `100 * (min(avg_acs/300,1)*0.6 + min(avg_kd/1.5,1)*0.4)`,
clamped to [0, 100]. -/
def impactRatingSpec (avg_acs avg_kd : ℚ) : ℚ :=
  min 100 (max 0 (100 * (min (avg_acs / 300) 1 * 0.6 + min (avg_kd / 1.5) 1 * 0.4)))

/-! ## Concrete inputs used by witnesses and counterexamples -/

/-- A one-game, 1-kill/1-death Sage player: K/D = 1, no duelist or initiator
picks. -/
def soloSageAggs : List (String × PlayerData) :=
  [("p1", { name := "solo", games := 1, total_kills := 1, total_deaths := 1,
            agents := [("Sage", 1)] })]

/-- A player averaging 150 ACS with K/D 0.75 over ten games. -/
def midPlayerAggs : List (String × PlayerData) :=
  [("p1", { name := "mid", games := 10, total_acs := 1500, total_kills := 3,
            total_deaths := 4, agents := [("Sage", 1)] })]

/-- The spec section 8 impact scenario: 3000 total ACS over ten games
(avg 300), 20 kills, 10 deaths (K/D = 2). -/
def starPlayerAggs : List (String × PlayerData) :=
  [("p1", { name := "star", games := 10, total_acs := 3000, total_kills := 20,
            total_deaths := 10, agents := [("Jett", 1)] })]

/-- A player aggregate with zero games. -/
def zeroGamesData : PlayerData := { name := "ghost" }

/-- A 0-0 match on Haven: its computed `MapStats` has zero average rounds. -/
def zeroRoundsMatch : Match := { series_id := "s1", map_name := "Haven" }

/-- A match whose `map_name` is the empty string (normalised to "Unknown" by
`_analyze_map_performance`). -/
def emptyNameMatch : Match := { series_id := "s2", map_name := "" }

/-- The Haven entry of the demo map statistics. -/
def demoHavenStats : MapStats :=
  { map_name := "Haven", games_played := 5, wins := 4, losses := 1,
    avg_rounds_won := 13.2, avg_rounds_lost := 8.4 }

/-- Two Haven matches (a 13-4 win and a 9-13 loss). -/
def twoHavenMatches : List Match :=
  [{ series_id := "a", map_name := "Haven", team_score := 13, opponent_score := 4,
     won := true },
   { series_id := "b", map_name := "Haven", team_score := 9, opponent_score := 13,
     won := false }]

/-! ## Helper lemmas -/

theorem mem_sortByDesc {α β : Type} [LinearOrder β] (key : α → β) (l : List α) (a : α) :
    a ∈ sortByDesc key l ↔ a ∈ l :=
  (List.perm_insertionSort (fun a b => key b ≤ key a) l).mem_iff

theorem sum_map_sortByDesc {α β : Type} [LinearOrder β] (key : α → β) (f : α → ℕ)
    (l : List α) : ((sortByDesc key l).map f).sum = (l.map f).sum :=
  ((List.perm_insertionSort (fun a b => key b ≤ key a) l).map f).sum_eq

theorem vetoCategory_strong (their_wr : ℚ) (their_gp : ℕ) (score : ℚ)
    (h1 : 0.70 ≤ their_wr) (h2 : 2 ≤ their_gp) :
    (vetoCategory their_wr their_gp score).1 = "BAN" ∨
      (vetoCategory their_wr their_gp score).1 = "MUST_BAN" := by
  simp only [vetoCategory]
  split
  · split
    · exact Or.inr rfl
    · exact Or.inl rfl
  · next h => exact absurd ⟨h1, h2⟩ h

theorem vetoCategory_weak (their_wr : ℚ) (their_gp : ℕ) (score : ℚ)
    (h1 : their_wr ≤ 0.40) (h2 : 2 ≤ their_gp) :
    (vetoCategory their_wr their_gp score).1 = "PICK" ∨
      (vetoCategory their_wr their_gp score).1 = "MUST_PICK" := by
  simp only [vetoCategory]
  split
  · next hs => exact absurd (le_trans hs.1 h1) (by norm_num)
  · split
    · split
      · exact Or.inr rfl
      · exact Or.inl rfl
    · next hw => exact absurd ⟨h1, h2⟩ hw

theorem vetoRecFor_map_name (stats : List MapStats) (our : Option (List MapStats))
    (m : String) : (vetoRecFor stats our m).map_name = m := rfl

theorem vetoRecFor_recommendation (stats : List MapStats) (our : Option (List MapStats))
    (m : String) :
    (vetoRecFor stats our m).recommendation =
      (vetoCategory (theirWr stats (lowerStr m)) (theirGp stats (lowerStr m))
        (vetoRecFor stats our m).score).1 := rfl

/-! ## Claim theorems -/

/-- C3: the claim says the emitted `aggression_score` equals
`100 * (min(avg_kd/1.5,1)*0.5 + duelist_ratio*0.35 + initiator_ratio*0.15)`
clamped to [0, 100].  The code instead multiplies the already-0-to-100
weighted sum `min(avg_kd/1.5,1)*50 + duelist_ratio*35 + initiator_ratio*15`
by a further 100 before clamping, so it saturates at 100 for any player whose
weighted sum reaches 0.01: for a one-game player with 1 kill, 1 death and a
single Sage pick (avg_kd = 1, both ratios 0) the code emits 100 while the
claimed formula gives 100/3. -/
theorem C3_aggression_score_bug :
    (∃ p ∈ generate_player_behavior_profiles soloSageAggs,
      p.name = "solo" ∧ p.aggression_score = 100) ∧
    aggressionScoreSpec 1 0 0 = 100 / 3 ∧ (100 : ℚ) ≠ 100 / 3 := by
  refine ⟨by decide, by decide, by decide⟩

/-- C4: the claim says `impact_rating` equals
`100 * (min(avg_acs/300,1)*0.6 + min(avg_kd/1.5,1)*0.4)` clamped to [0, 100].
The code multiplies the already-0-to-100 weighted sum by a further 100 before
clamping: for a ten-game player with avg ACS 150 and K/D 0.75 the code emits
100 while the claimed formula gives 50.  The claim's particular scenario
(avg ACS 300, K/D 2) does reach the ceiling in both readings. -/
theorem C4_impact_rating_bug :
    (∃ p ∈ generate_player_behavior_profiles midPlayerAggs,
      p.name = "mid" ∧ p.impact_rating = 100) ∧
    impactRatingSpec 150 (3 / 4) = 50 ∧ (100 : ℚ) ≠ 50 ∧
    (∃ p ∈ generate_player_behavior_profiles starPlayerAggs,
      p.name = "star" ∧ p.impact_rating = 100) ∧
    impactRatingSpec 300 2 = 100 := by
  refine ⟨by decide, by decide, by decide, by decide, by decide⟩

/-- C5 counterexample: on a mapping holding exactly one player with zero
games, `_identify_primary_threat` returns the reason "no player data", not
the "insufficient data" pair the claim asserts (that pair is returned only
for the empty mapping). -/
theorem C5_zero_games_counterexample :
    identify_primary_threat [("p", zeroGamesData)] = ("Unknown Threat", "no player data") ∧
    identify_primary_threat [("p", zeroGamesData)] ≠ ("Unknown Threat", "insufficient data") := by
  refine ⟨by decide, by decide⟩

/-- C5 amended: `_identify_primary_threat` applied to a mapping holding
exactly one player whose games count is 0 returns
`("Unknown Threat", "no player data")`; the fallback for the empty mapping is
`("Unknown Threat", "insufficient data")` — the threat labels agree, the
reason strings differ. -/
theorem C5_zero_games_amended (k : String) (d : PlayerData) (h : d.games = 0) :
    identify_primary_threat [(k, d)] = ("Unknown Threat", "no player data") ∧
    identify_primary_threat [] = ("Unknown Threat", "insufficient data") := by
  constructor
  · simp [identify_primary_threat, h, sortByDesc]
  · rfl

theorem C5_zero_games_amended_witness :
    zeroGamesData.games = 0 ∧
    (identify_primary_threat [("p", zeroGamesData)] = ("Unknown Threat", "no player data") ∧
      identify_primary_threat [] = ("Unknown Threat", "insufficient data")) :=
  ⟨rfl, C5_zero_games_amended "p" zeroGamesData rfl⟩

/-- C8 counterexample: with an empty match list but a non-empty
player-aggregates mapping, `_generate_team_composition` returns a result
(its guard requires both inputs to be empty), contradicting the claim that an
empty match list alone forces no result. -/
theorem C8_team_composition_counterexample :
    (generate_team_composition soloSageAggs []).isSome = true := by
  decide

/-- C8 amended: with an empty match list, `_generate_economy_tendency`
returns no result for every player-aggregates value, while
`_generate_team_composition` returns no result only when the aggregates
mapping is also empty — for a non-empty aggregates mapping it returns a
composition. -/
theorem C8_empty_matches_amended (aggs : List (String × PlayerData)) :
    generate_economy_tendency [] aggs = none ∧
    generate_team_composition [] [] = none ∧
    (aggs ≠ [] → (generate_team_composition aggs []).isSome = true) := by
  refine ⟨rfl, rfl, ?_⟩
  intro h
  match aggs, h with
  | a :: rest, _ => rfl

theorem C8_empty_matches_amended_witness :
    soloSageAggs ≠ [] ∧
    (generate_economy_tendency [] soloSageAggs = none ∧
      (generate_team_composition soloSageAggs []).isSome = true) :=
  ⟨List.cons_ne_nil _ _,
   (C8_empty_matches_amended soloSageAggs).1,
   (C8_empty_matches_amended soloSageAggs).2.2 (List.cons_ne_nil _ _)⟩

/-- C10: with an empty player-aggregates mapping the team K/D of
`_generate_tactical_insights` evaluates to 0, so the "Vulnerable to
Aggression" TIP template (K/D < 0.95) always fires, whatever the map stats
and match list; in particular every demo report (empty matches input)
contains this insight. -/
theorem C10_vulnerable_to_aggression (map_stats : List MapStats) (matchList : List Match) :
    teamKd [] = 0 ∧
    (∃ t ∈ generate_tactical_insights [] map_stats matchList,
      t.title = "Vulnerable to Aggression" ∧ t.severity = "TIP") ∧
    (∀ tid tname : String,
      ∃ t ∈ (generate_scout_report tid tname [] none).tactical_insights,
        t.title = "Vulnerable to Aggression" ∧ t.severity = "TIP") := by
  have hkd : teamKd ([] : List (String × PlayerData)) = 0 := by decide
  have key : ∀ (ms : List MapStats) (ml : List Match),
      ∃ t ∈ generate_tactical_insights [] ms ml,
        t.title = "Vulnerable to Aggression" ∧ t.severity = "TIP" := by
    intro ms ml
    simp only [generate_tactical_insights]
    rw [hkd]
    norm_num
  exact ⟨hkd, key map_stats matchList, fun tid tname => key demoMapStats []⟩

/-- C1 counterexample: in the demo report the claim fails twice.  The demo
map with wins = 3, losses = 0, games = 3 (Lotus, win rate 1.0 ≥ 0.70) has no
veto-recommendation entry at all, because Lotus is not in the canonical
seven-map pool the veto scorer iterates over; and Haven (win rate 0.8 ≥ 0.70
with 5 ≥ 2 games) gets no "Avoid Haven" tactical insight, because the insight
template names only the single strongest map. -/
theorem C1_demo_consistency_counterexample :
    (∃ ms ∈ (generate_scout_report "t" "T" [] none).map_stats,
      ms.map_name = "Lotus" ∧ ms.wins = 3 ∧ ms.losses = 0 ∧ ms.games_played = 3 ∧
      0.70 ≤ ms.win_rate ∧ 2 ≤ ms.games_played ∧
      ¬ ∃ r ∈ (generate_scout_report "t" "T" [] none).veto_recommendations,
          r.map_name = ms.map_name) ∧
    (∃ ms ∈ (generate_scout_report "t" "T" [] none).map_stats,
      ms.map_name = "Haven" ∧ 0.70 ≤ ms.win_rate ∧ 2 ≤ ms.games_played ∧
      ¬ ∃ t ∈ (generate_scout_report "t" "T" [] none).tactical_insights,
          t.title = "Avoid " ++ ms.map_name) := by
  refine ⟨by decide, by decide⟩

/-- C1 amended: the demo report does route its fixed demo map statistics
through the real veto scorer and insight generator, and the sections agree as
far as the code's own scopes allow: the tactical insights contain an
"Avoid MAP" insight for the single strongest demo map (Lotus, the
wins = 3, losses = 0, games = 3 map) and for no other demo map (in
particular not for Split or Ascent, which also qualify at win rate 0.75 with
at least 2 games); every demo map with win rate ≥ 0.70 and ≥ 2 games that
lies in the canonical seven-map pool has a veto-recommendation entry, and
every veto entry for such a map is BAN or MUST_BAN — never NEUTRAL; demo
maps outside the canonical pool (Ascent, Lotus) receive no
veto-recommendation entry at all. -/
theorem C1_demo_consistency_amended (tid tname : String) :
    (∃ t ∈ (generate_scout_report tid tname [] none).tactical_insights,
      t.title = "Avoid Lotus" ∧ t.severity = "WARNING") ∧
    (∀ ms ∈ (generate_scout_report tid tname [] none).map_stats,
      (∃ t ∈ (generate_scout_report tid tname [] none).tactical_insights,
        t.title = "Avoid " ++ ms.map_name) → ms.map_name = "Lotus") ∧
    (∀ ms ∈ (generate_scout_report tid tname [] none).map_stats,
      0.70 ≤ ms.win_rate → 2 ≤ ms.games_played → ms.map_name ∈ ALL_MAPS →
      (∃ r ∈ (generate_scout_report tid tname [] none).veto_recommendations,
        r.map_name = ms.map_name ∧
          (r.recommendation = "BAN" ∨ r.recommendation = "MUST_BAN")) ∧
      (∀ r ∈ (generate_scout_report tid tname [] none).veto_recommendations,
        r.map_name = ms.map_name →
          (r.recommendation = "BAN" ∨ r.recommendation = "MUST_BAN"))) ∧
    (∀ ms ∈ (generate_scout_report tid tname [] none).map_stats,
      ms.map_name ∉ ALL_MAPS →
      ∀ r ∈ (generate_scout_report tid tname [] none).veto_recommendations,
        r.map_name ≠ ms.map_name) := by
  have h :
      (∃ t ∈ generate_tactical_insights [] demoMapStats [],
        t.title = "Avoid Lotus" ∧ t.severity = "WARNING") ∧
      (∀ ms ∈ demoMapStats,
        (∃ t ∈ generate_tactical_insights [] demoMapStats [],
          t.title = "Avoid " ++ ms.map_name) → ms.map_name = "Lotus") ∧
      (∀ ms ∈ demoMapStats,
        0.70 ≤ ms.win_rate → 2 ≤ ms.games_played → ms.map_name ∈ ALL_MAPS →
        (∃ r ∈ generate_veto_recommendations demoMapStats none,
          r.map_name = ms.map_name ∧
            (r.recommendation = "BAN" ∨ r.recommendation = "MUST_BAN")) ∧
        (∀ r ∈ generate_veto_recommendations demoMapStats none,
          r.map_name = ms.map_name →
            (r.recommendation = "BAN" ∨ r.recommendation = "MUST_BAN"))) ∧
      (∀ ms ∈ demoMapStats,
        ms.map_name ∉ ALL_MAPS →
        ∀ r ∈ generate_veto_recommendations demoMapStats none,
          r.map_name ≠ ms.map_name) := by
    refine ⟨by decide, by decide, by decide, by decide⟩
  exact h

/-- C2: the veto-scorer guardrails.  For any opponent map statistics, any
own-team statistics and any canonical-pool map, if the opponent win rate the
scorer looks up for that map is at least 0.70 with at least 2 opponent games
then every veto entry for that map (and one exists) is BAN or MUST_BAN, and
if the win rate is at most 0.40 with at least 2 opponent games then every
veto entry for that map (and one exists) is PICK or MUST_PICK — NEUTRAL is
impossible in both bands. -/
theorem C2_veto_guardrails (their_map_stats : List MapStats)
    (our_team_stats : Option (List MapStats)) (m : String) (hm : m ∈ ALL_MAPS)
    (hgp : 2 ≤ theirGp their_map_stats (lowerStr m)) :
    (0.70 ≤ theirWr their_map_stats (lowerStr m) →
      (∃ r ∈ generate_veto_recommendations their_map_stats our_team_stats,
        r.map_name = m ∧ (r.recommendation = "BAN" ∨ r.recommendation = "MUST_BAN")) ∧
      ∀ r ∈ generate_veto_recommendations their_map_stats our_team_stats,
        r.map_name = m → (r.recommendation = "BAN" ∨ r.recommendation = "MUST_BAN")) ∧
    (theirWr their_map_stats (lowerStr m) ≤ 0.40 →
      (∃ r ∈ generate_veto_recommendations their_map_stats our_team_stats,
        r.map_name = m ∧ (r.recommendation = "PICK" ∨ r.recommendation = "MUST_PICK")) ∧
      ∀ r ∈ generate_veto_recommendations their_map_stats our_team_stats,
        r.map_name = m → (r.recommendation = "PICK" ∨ r.recommendation = "MUST_PICK")) := by
  have hmem : vetoRecFor their_map_stats our_team_stats m ∈
      generate_veto_recommendations their_map_stats our_team_stats :=
    (mem_sortByDesc _ _ _).mpr (List.mem_map_of_mem _ hm)
  have hdecomp : ∀ r ∈ generate_veto_recommendations their_map_stats our_team_stats,
      r.map_name = m → r = vetoRecFor their_map_stats our_team_stats m := by
    intro r hr hname
    rcases List.mem_map.mp ((mem_sortByDesc _ _ _).mp hr) with ⟨name, _, rfl⟩
    have hnm : name = m := hname
    rw [hnm]
  constructor
  · intro hwr
    have hrec : (vetoRecFor their_map_stats our_team_stats m).recommendation = "BAN" ∨
        (vetoRecFor their_map_stats our_team_stats m).recommendation = "MUST_BAN" := by
      rw [vetoRecFor_recommendation]
      exact vetoCategory_strong _ _ _ hwr hgp
    refine ⟨⟨_, hmem, rfl, hrec⟩, ?_⟩
    intro r hr hname
    rw [hdecomp r hr hname]
    exact hrec
  · intro hwr
    have hrec : (vetoRecFor their_map_stats our_team_stats m).recommendation = "PICK" ∨
        (vetoRecFor their_map_stats our_team_stats m).recommendation = "MUST_PICK" := by
      rw [vetoRecFor_recommendation]
      exact vetoCategory_weak _ _ _ hwr hgp
    refine ⟨⟨_, hmem, rfl, hrec⟩, ?_⟩
    intro r hr hname
    rw [hdecomp r hr hname]
    exact hrec

theorem C2_veto_guardrails_witness :
    ("Haven" ∈ ALL_MAPS ∧ 2 ≤ theirGp demoMapStats (lowerStr "Haven")) ∧
    ((0.70 ≤ theirWr demoMapStats (lowerStr "Haven") →
      (∃ r ∈ generate_veto_recommendations demoMapStats none,
        r.map_name = "Haven" ∧
          (r.recommendation = "BAN" ∨ r.recommendation = "MUST_BAN")) ∧
      ∀ r ∈ generate_veto_recommendations demoMapStats none,
        r.map_name = "Haven" →
          (r.recommendation = "BAN" ∨ r.recommendation = "MUST_BAN")) ∧
    (theirWr demoMapStats (lowerStr "Haven") ≤ 0.40 →
      (∃ r ∈ generate_veto_recommendations demoMapStats none,
        r.map_name = "Haven" ∧
          (r.recommendation = "PICK" ∨ r.recommendation = "MUST_PICK")) ∧
      ∀ r ∈ generate_veto_recommendations demoMapStats none,
        r.map_name = "Haven" →
          (r.recommendation = "PICK" ∨ r.recommendation = "MUST_PICK"))) :=
  ⟨⟨by decide, by decide⟩,
   C2_veto_guardrails demoMapStats none "Haven" (by decide) (by decide)⟩

/-- C6 counterexample: a computed `MapStats` entry whose average rounds are
both zero (here from a 0-0 Haven match) is matched by the matrix, yet its
entry carries the 0.5/0.5 attack/defense split, not
`min(win_rate*0.9, 1)` / `min(win_rate*1.1, 1)` — so the 0.5/0.5 default does
appear in the matrix for a matched map, contrary to the claim. -/
theorem C6_matrix_split_counterexample :
    ∃ ms ∈ analyze_map_performance [zeroRoundsMatch], ms.map_name = "Haven" ∧
      ∃ e ∈ generate_map_pool_matrix (analyze_map_performance [zeroRoundsMatch]),
        e.map_name = "Haven" ∧ e.attack_win_rate = 0.5 ∧ e.defense_win_rate = 0.5 ∧
        ¬ (e.attack_win_rate = min (ms.win_rate * 0.9) 1.0 ∧
           e.defense_win_rate = min (ms.win_rate * 1.1) 1.0) := by
  decide

/-- C6 amended: for every canonical map matched (case-insensitively) by a
`MapStats` entry, the matrix entry has
`attack_win_rate = min(win_rate*0.9, 1)` and
`defense_win_rate = min(win_rate*1.1, 1)` provided the entry's average rounds
sum to a positive total; when that total is not positive the matched entry
instead carries the 0.5/0.5 split, which therefore can also appear in the
matrix, not only inside the veto scorer. -/
theorem C6_matrix_split_amended (map_stats : List MapStats) (m : String)
    (hm : m ∈ ALL_MAPS) (ms : MapStats)
    (hms : last_assoc? (fun ms => lowerStr ms.map_name) map_stats (lowerStr m) = some ms) :
    ∃ e ∈ generate_map_pool_matrix map_stats,
      e.map_name = m ∧
      (0 < ms.avg_rounds_won + ms.avg_rounds_lost →
        e.attack_win_rate = min (ms.win_rate * 0.9) 1.0 ∧
        e.defense_win_rate = min (ms.win_rate * 1.1) 1.0) ∧
      (¬ 0 < ms.avg_rounds_won + ms.avg_rounds_lost →
        e.attack_win_rate = 0.5 ∧ e.defense_win_rate = 0.5) := by
  have hmem : mapPoolEntryFor map_stats m ∈ generate_map_pool_matrix map_stats :=
    (mem_sortByDesc _ _ _).mpr (List.mem_map_of_mem _ hm)
  refine ⟨_, hmem, ?_, ?_, ?_⟩
  · simp only [mapPoolEntryFor, hms]
  · intro hpos
    simp only [mapPoolEntryFor, hms]
    rw [if_pos hpos, if_pos hpos]
    exact ⟨rfl, rfl⟩
  · intro hneg
    simp only [mapPoolEntryFor, hms]
    rw [if_neg hneg, if_neg hneg]
    exact ⟨rfl, rfl⟩

theorem C6_matrix_split_amended_witness :
    ("Haven" ∈ ALL_MAPS ∧
      last_assoc? (fun ms => lowerStr ms.map_name) demoMapStats (lowerStr "Haven") =
        some demoHavenStats) ∧
    ∃ e ∈ generate_map_pool_matrix demoMapStats,
      e.map_name = "Haven" ∧
      (0 < demoHavenStats.avg_rounds_won + demoHavenStats.avg_rounds_lost →
        e.attack_win_rate = min (demoHavenStats.win_rate * 0.9) 1.0 ∧
        e.defense_win_rate = min (demoHavenStats.win_rate * 1.1) 1.0) ∧
      (¬ 0 < demoHavenStats.avg_rounds_won + demoHavenStats.avg_rounds_lost →
        e.attack_win_rate = 0.5 ∧ e.defense_win_rate = 0.5) :=
  ⟨⟨by decide, by decide⟩,
   C6_matrix_split_amended demoMapStats "Haven" (by decide) demoHavenStats (by decide)⟩

theorem normMapName_ne_unknown (m : Match) :
    (normMapName m != "Unknown") = !(m.map_name == "" || m.map_name == "Unknown") := by
  simp only [normMapName]
  by_cases h : m.map_name = ""
  · simp [h]
  · by_cases h2 : m.map_name = "Unknown" <;> simp [bne, h, h2]

theorem sumGamesNU_update (m : Match) (l : List (String × MapData)) :
    (((update_assoc {} (fun d => foldMapData d m) l (normMapName m)).filter
        (fun p => p.1 != "Unknown")).map (fun p => p.2.games)).sum =
      ((l.filter (fun p => p.1 != "Unknown")).map (fun p => p.2.games)).sum +
        (if normMapName m = "Unknown" then 0 else 1) := by
  induction l with
  | nil =>
      by_cases h : normMapName m = "Unknown" <;>
        simp [update_assoc, h, foldMapData]
  | cons hd tl ih =>
      obtain ⟨a, v⟩ := hd
      simp only [update_assoc]
      by_cases hak : a = normMapName m
      · rw [if_pos (by simp [hak])]
        by_cases hu : normMapName m = "Unknown"
        · rw [hak, hu]
          simp [List.filter_cons]
        · rw [hak]
          simp [List.filter_cons, hu, foldMapData]
          omega
      · rw [if_neg (by simp [hak])]
        by_cases ha : a = "Unknown"
        · simp [List.filter_cons, ha, ih]
        · simp [List.filter_cons, ha, ih]
          omega

theorem sumGamesNU_fold (matchList : List Match) (acc : List (String × MapData)) :
    (((matchList.foldl
          (fun md m => update_assoc {} (fun d => foldMapData d m) md (normMapName m))
          acc).filter (fun p => p.1 != "Unknown")).map (fun p => p.2.games)).sum =
      ((acc.filter (fun p => p.1 != "Unknown")).map (fun p => p.2.games)).sum +
        (matchList.filter (fun m => normMapName m != "Unknown")).length := by
  induction matchList generalizing acc with
  | nil => simp
  | cons m rest ih =>
      simp only [List.foldl_cons, List.filter_cons]
      rw [ih, sumGamesNU_update]
      by_cases h : normMapName m = "Unknown"
      · simp [h]
      · simp [h]
        omega

/-- C7 counterexample: a match whose `map_name` is the empty string is
normalised to "Unknown" and excluded from the aggregation, yet the claim's
count (`map_name != "Unknown"`) includes it: for one such match the
games-played sum is 0 while the claimed count is 1. -/
theorem C7_games_sum_counterexample :
    ((analyze_map_performance [emptyNameMatch]).map (·.games_played)).sum = 0 ∧
    ([emptyNameMatch].filter (fun m => m.map_name != "Unknown")).length = 1 := by
  refine ⟨by decide, by decide⟩

/-- C7 amended: for every non-empty match list, the games-played sum over all
produced `MapStats` equals the number of matches whose `map_name` is neither
the empty string nor "Unknown" (Python-falsy map names are normalised to
"Unknown" and excluded along with it). -/
theorem C7_games_sum_amended (matchList : List Match) (_h : matchList ≠ []) :
    ((analyze_map_performance matchList).map (·.games_played)).sum =
      (matchList.filter (fun m => !(m.map_name == "" || m.map_name == "Unknown"))).length := by
  unfold analyze_map_performance
  rw [sum_map_sortByDesc]
  rw [List.map_map]
  have hcomp :
      (MapStats.games_played ∘ fun (p : String × MapData) =>
        ({ map_name := p.1, games_played := p.2.games, wins := p.2.wins,
           losses := p.2.losses,
           avg_rounds_won := (p.2.rounds_won : ℚ) / ((max p.2.games 1 : ℕ) : ℚ),
           avg_rounds_lost := (p.2.rounds_lost : ℚ) / ((max p.2.games 1 : ℕ) : ℚ) } :
          MapStats)) = fun p => p.2.games := rfl
  rw [hcomp, sumGamesNU_fold]
  simp only [List.filter_nil, List.map_nil, List.sum_nil, Nat.zero_add]
  congr 1
  apply List.filter_congr
  intro m _
  exact normMapName_ne_unknown m

theorem C7_games_sum_amended_witness :
    twoHavenMatches ≠ [] ∧
    ((analyze_map_performance twoHavenMatches).map (·.games_played)).sum =
      (twoHavenMatches.filter
        (fun m => !(m.map_name == "" || m.map_name == "Unknown"))).length :=
  ⟨List.cons_ne_nil _ _,
   C7_games_sum_amended twoHavenMatches (List.cons_ne_nil _ _)⟩

theorem bansLoop_eq (n : ℕ) (l : List MapStats) (acc : List String) :
    recommendedBansLoop n l acc =
      acc ++ ((l.filter (fun ms => ms.games_played ≥ 2)).map (·.map_name)).take
        (n - acc.length) := by
  induction l generalizing acc with
  | nil => simp [recommendedBansLoop]
  | cons ms rest ih =>
      simp only [recommendedBansLoop, List.filter_cons]
      by_cases hfull : acc.length ≥ n
      · rw [if_pos hfull]
        have h0 : n - acc.length = 0 := by omega
        simp [h0]
      · rw [if_neg hfull]
        by_cases hg : ms.games_played ≥ 2
        · rw [if_pos hg, ih]
          have h1 : n - acc.length = (n - (acc ++ [ms.map_name]).length) + 1 := by
            simp only [List.length_append, List.length_cons, List.length_nil]
            omega
          simp [hg, h1, List.take_succ_cons]
        · rw [if_neg hg, ih]
          simp [hg]

theorem get_recommended_bans_eq (map_stats : List MapStats) :
    get_recommended_bans map_stats 2 =
      ((map_stats.filter (fun ms => ms.games_played ≥ 2)).map (·.map_name)).take 2 ++
        List.replicate
          (2 - (((map_stats.filter (fun ms => ms.games_played ≥ 2)).map
            (·.map_name)).take 2).length) "TBD" := by
  unfold get_recommended_bans
  rw [bansLoop_eq]
  simp

theorem get_recommended_bans_length (map_stats : List MapStats) :
    (get_recommended_bans map_stats 2).length = 2 := by
  rw [get_recommended_bans_eq]
  simp only [List.length_append, List.length_replicate, List.length_take]
  omega

/-- C9: for every non-empty match list, the composed report's
`recommended_bans` list has exactly 2 entries: the first map names, in the
win-rate-descending order of the computed map stats, with at least 2 games
played, then the literal "TBD" filling the remaining slots when fewer than 2
maps qualify. -/
theorem C9_recommended_bans (tid tname : String) (our : Option (List MapStats))
    (matchList : List Match) (h : matchList ≠ []) :
    (generate_scout_report tid tname matchList our).recommended_bans.length = 2 ∧
    (generate_scout_report tid tname matchList our).recommended_bans =
      (((analyze_map_performance matchList).filter
          (fun ms => ms.games_played ≥ 2)).map (·.map_name)).take 2 ++
        List.replicate
          (2 - ((((analyze_map_performance matchList).filter
            (fun ms => ms.games_played ≥ 2)).map (·.map_name)).take 2).length) "TBD" := by
  match matchList, h with
  | m :: rest, _ =>
      have hb : (generate_scout_report tid tname (m :: rest) our).recommended_bans =
          get_recommended_bans (analyze_map_performance (m :: rest)) 2 := rfl
      rw [hb]
      exact ⟨get_recommended_bans_length _, get_recommended_bans_eq _⟩

theorem C9_recommended_bans_witness :
    twoHavenMatches ≠ [] ∧
    ((generate_scout_report "t" "T" twoHavenMatches none).recommended_bans.length = 2 ∧
      (generate_scout_report "t" "T" twoHavenMatches none).recommended_bans =
        (((analyze_map_performance twoHavenMatches).filter
            (fun ms => ms.games_played ≥ 2)).map (·.map_name)).take 2 ++
          List.replicate
            (2 - ((((analyze_map_performance twoHavenMatches).filter
              (fun ms => ms.games_played ≥ 2)).map (·.map_name)).take 2).length) "TBD") :=
  ⟨List.cons_ne_nil _ _,
   C9_recommended_bans "t" "T" none twoHavenMatches (List.cons_ne_nil _ _)⟩

end VetoBrain
